import Mathlib

set_option maxRecDepth 8000

/-!
# Verification of the `webresolver` API client (src/index.js)

Shallow embedding of the single-file node.js module.  JavaScript values that
can reach the validation helper are modelled by `JSVal`; each public method of
the `WebResolver` class is translated into a pure function returning an
`Outcome`: either a thrown exception, a locally synthesized error object
`{data:{error: msg}}`, or an outbound HTTP GET on a URL (the transport
response is returned unmodified, so a request outcome carries just the URL).
-/

/-- JavaScript values relevant to the module's argument handling. -/
inductive JSVal where
  | undef : JSVal
  | null : JSVal
  | str : String → JSVal
  | num : Int → JSVal
deriving DecidableEq, Repr

/-- JavaScript string coercion as performed by `+` concatenation:
`undefined` and `null` stringify to the literal words, numbers to their
decimal representation. -/
def jsToString : JSVal → String
  | .undef => "undefined"
  | .null => "null"
  | .str s => s
  | .num n => toString n

/-- Whitespace characters removed by JavaScript's `String.prototype.trim`
(the ASCII subset; the module's callers only rely on these). -/
def jsWhitespace (c : Char) : Bool :=
  c = ' ' || c = '\t' || c = '\n' || c = '\r' || c = '\x0b' || c = '\x0c'

/-- JavaScript `value.trim()`: strip leading and trailing whitespace. -/
def jsTrim (s : String) : String :=
  ⟨((s.toList.dropWhile jsWhitespace).reverse.dropWhile jsWhitespace).reverse⟩

/-- Model of `validator.isEmpty(str)` with default options: throws a
`TypeError` unless the argument is a string, else checks `str.length === 0`. -/
def validatorIsEmpty : JSVal → Except String Bool
  | .str s => .ok (s = "")
  | _ => .error "TypeError: Expected a string"

/-- `isEmpty` from src/index.js lines 15-21:
`value === undefined || value === null ||
 (typeof value === 'string' && value.trim().length === 0) ||
 validator.isEmpty(value)`.
For a non-string, non-undefined, non-null value the first three disjuncts are
false and `validator.isEmpty` throws. -/
def isEmpty (value : JSVal) : Except String Bool :=
  match value with
  | .undef => .ok true
  | .null => .ok true
  | .str s =>
      if jsTrim s = "" then .ok true
      else validatorIsEmpty (.str s)
  | .num n => validatorIsEmpty (.num n)

/-- One segment of a dotted-decimal IPv4 address, after validator.js:
`25[0-5] | 2[0-4][0-9] | 1[0-9][0-9] | [1-9][0-9] | [0-9]`
(a decimal number 0-255 with no leading zero). -/
def ipv4SegOk : List Char → Bool
  | [a] => a.isDigit
  | [a, b] => ('1' ≤ a && a ≤ '9') && b.isDigit
  | [a, b, c] =>
      (a = '1' && b.isDigit && c.isDigit) ||
      (a = '2' && '0' ≤ b && b ≤ '4' && c.isDigit) ||
      (a = '2' && b = '5' && '0' ≤ c && c ≤ '5')
  | _ => false

/-- Dotted-decimal IPv4 address: exactly four valid segments. -/
def ipv4ListOk (l : List Char) : Bool :=
  let segs := l.splitOn '.'
  segs.length = 4 && segs.all ipv4SegOk

/-- A hexadecimal digit character. -/
def isHexDigitChar (c : Char) : Bool :=
  c.isDigit || ('a' ≤ c && c ≤ 'f') || ('A' ≤ c && c ≤ 'F')

/-- One IPv6 group: one to four hexadecimal digits. -/
def hexSegOk (l : List Char) : Bool :=
  decide (1 ≤ l.length) && decide (l.length ≤ 4) && l.all isHexDigitChar

/-- Model of validator.js `isIPv6` (structural reading of its regular
expression): colon-separated hexadecimal groups, at most one `::`
compression, optionally ending in an embedded dotted-decimal IPv4 address;
eight groups when uncompressed, fewer when compressed. -/
def isIPv6List (l : List Char) : Bool :=
  let parts := l.splitOn ':'
  let emptyCount := (parts.filter (· = [])).length
  if emptyCount = 0 then
    -- no "::" compression: 8 hex groups, or 6 hex groups then an IPv4 tail
    (parts.length = 8 && parts.all hexSegOk) ||
    (parts.length = 7 && (parts.take 6).all hexSegOk &&
      ipv4ListOk (parts.getLastD []))
  else
    -- "::" compression: every nonempty part a hex group (or IPv4 tail),
    -- fewer than 8 groups, and the empty parts form a single "::"
    -- (one interior empty, or two at an end, or three for "::" alone)
    let nonempty := parts.filter (· ≠ [])
    let hexPartOk := nonempty.length < 8 &&
      (nonempty.take (nonempty.length - 1)).all hexSegOk &&
      (match nonempty.getLast? with
       | none => true
       | some last => hexSegOk last || ipv4ListOk last)
    let shapeOk :=
      (emptyCount = 1 && parts.head? ≠ some [] && parts.getLast? ≠ some []) ||
      (emptyCount = 2 &&
        ((parts.take 2 = [[], []]) || (parts.drop (parts.length - 2) = [[], []]))) ||
      (emptyCount = 3 && parts = [[], [], []])
    hexPartOk && shapeOk

/-- Model of validator.js `isIP(str)` with no version argument: the string is
a valid IPv4 or IPv6 address. -/
def validatorIsIP (s : String) : Bool :=
  ipv4ListOk s.toList || isIPv6List s.toList

/-- Characters validator.js allows in an unquoted email user part:
alphanumerics and a fixed set of ASCII punctuation. -/
def emailUserChar (c : Char) : Bool :=
  c.isAlphanum ||
  c = '!' || c = '#' || c = '$' || c = '%' || c = '&' || c = '\x27' ||
  c = '*' || c = '+' || c = '-' || c = '/' || c = '=' || c = '?' ||
  c = '^' || c = '_' || c = '\x60' || c = '\x7b' || c = '|' || c = '\x7d' ||
  c = '~'

/-- A domain label for validator.js FQDN checking: 1-63 characters,
alphanumeric or hyphen, neither starting nor ending with a hyphen. -/
def domainLabelOk (l : List Char) : Bool :=
  decide (1 ≤ l.length) && decide (l.length ≤ 63) &&
  l.all (fun c => c.isAlphanum || c = '-') &&
  l.head? ≠ some '-' && l.getLast? ≠ some '-'

/-- Model of validator.js `isEmail(str)` with default options: split at the
last `@`; the user part is nonempty dot-separated runs of allowed
characters; the domain is a fully-qualified domain name with at least two
labels whose top-level label is alphabetic of length at least two. -/
def validatorIsEmail (s : String) : Bool :=
  let l := s.toList
  let atParts := l.splitOn '@'
  if atParts.length < 2 then false
  else
    let domain := atParts.getLastD []
    let user := List.intercalate ['@'] (atParts.take (atParts.length - 1))
    let userParts := user.splitOn '.'
    let userOk := user ≠ [] && decide (user.length ≤ 64) &&
      userParts.all (fun p => p ≠ [] && p.all emailUserChar)
    let labels := domain.splitOn '.'
    let tld := labels.getLastD []
    let domainOk := decide (2 ≤ labels.length) &&
      labels.all domainLabelOk &&
      tld.all (·.isAlpha) && decide (2 ≤ tld.length)
    userOk && domainOk

/-- The result of calling one of the module's methods:
either the body threw, or it returned the synthetic object
`{data:{error: msg}}` with no network call, or it performed
`axios.get(url)` and returns the transport response unmodified. -/
inductive Outcome where
  | thrown : String → Outcome
  | localError : String → Outcome
  | request : String → Outcome
deriving DecidableEq, Repr

namespace WebResolver

/-- The client state: the base URL fixed at construction, and whether the
constructor printed the missing-API-key warning to the console. -/
structure Client where
  baseURL : String
  warned : Bool
deriving DecidableEq, Repr

/-- The `WebResolver` constructor (src/index.js lines 24-27):
`if(isEmpty(key)) { console.log({error: ...}) }` followed by
`this.baseURL = 'https://webresolver.nl/api.php?key=' + key`.
`isEmpty` can throw for non-string keys; otherwise construction succeeds and
the key is appended by JavaScript string concatenation. -/
def construct (key : JSVal) : Except String Client :=
  match isEmpty key with
  | .error e => .error e
  | .ok w => .ok ⟨"https://webresolver.nl/api.php?key=" ++ jsToString key, w⟩

/-- `skypeResolve(username)` (lines 34-40). -/
def skypeResolve (c : Client) (username : JSVal) : Outcome :=
  match isEmpty username with
  | .error e => .thrown e
  | .ok true => .localError "Please enter a Skype username!"
  | .ok false =>
      .request (c.baseURL ++ "&json&action=resolve&string=" ++ jsToString username)

/-- `resolveDb(username)` (lines 47-53). -/
def resolveDb (c : Client) (username : JSVal) : Outcome :=
  match isEmpty username with
  | .error e => .thrown e
  | .ok true => .localError "Please enter a Skype username!"
  | .ok false =>
      .request (c.baseURL ++ "&json&action=resolvedb&string=" ++ jsToString username)

/-- `ip2skype(ip)` (lines 60-70): emptiness check, then `validator.isIP`. -/
def ip2skype (c : Client) (ip : JSVal) : Outcome :=
  match isEmpty ip with
  | .error e => .thrown e
  | .ok true => .localError "Please enter a valid IP address!"
  | .ok false =>
      if validatorIsIP (jsToString ip) then
        .request (c.baseURL ++ "&json&action=ip2skype&string=" ++ jsToString ip)
      else
        .localError "Please enter a valid IP address!"

/-- `email2skype(email)` (lines 77-87): emptiness check, then
`validator.isEmail`. -/
def email2skype (c : Client) (email : JSVal) : Outcome :=
  match isEmpty email with
  | .error e => .thrown e
  | .ok true => .localError "Please enter a valid email address!"
  | .ok false =>
      if validatorIsEmail (jsToString email) then
        .request (c.baseURL ++ "&json&action=email2skype&string=" ++ jsToString email)
      else
        .localError "Please enter a valid email address!"

/-- `skype2email(username)` (lines 94-100). -/
def skype2email (c : Client) (username : JSVal) : Outcome :=
  match isEmpty username with
  | .error e => .thrown e
  | .ok true => .localError "Please enter a Skype username!"
  | .ok false =>
      .request (c.baseURL ++ "&json&action=skype2email&string=" ++ jsToString username)

/-- `geoIp(domain)` (lines 107-113). -/
def geoIp (c : Client) (domain : JSVal) : Outcome :=
  match isEmpty domain with
  | .error e => .thrown e
  | .ok true => .localError "Please enter a domain, IPv4 or IPv6 address!"
  | .ok false =>
      .request (c.baseURL ++ "&json&action=geoip&string=" ++ jsToString domain)

/-- `dns(domain)` (lines 120-126). -/
def dns (c : Client) (domain : JSVal) : Outcome :=
  match isEmpty domain with
  | .error e => .thrown e
  | .ok true => .localError "Please enter a domain!"
  | .ok false =>
      .request (c.baseURL ++ "&json&action=dns&string=" ++ jsToString domain)

/-- `cloudflare(domain)` (lines 133-139). -/
def cloudflare (c : Client) (domain : JSVal) : Outcome :=
  match isEmpty domain with
  | .error e => .thrown e
  | .ok true => .localError "Please enter a domain!"
  | .ok false =>
      .request (c.baseURL ++ "&json&action=cloudflare&string=" ++ jsToString domain)

/-- `phone(phonenumber)` (lines 146-152). -/
def phone (c : Client) (phonenumber : JSVal) : Outcome :=
  match isEmpty phonenumber with
  | .error e => .thrown e
  | .ok true => .localError "Please enter a phone number! (Use international phone format)"
  | .ok false =>
      .request (c.baseURL ++ "&json&action=phonenumbercheck&string=" ++ jsToString phonenumber)

/-- `screenshot(url)` (lines 159-165). -/
def screenshot (c : Client) (url : JSVal) : Outcome :=
  match isEmpty url with
  | .error e => .thrown e
  | .ok true => .localError "Please enter a url!"
  | .ok false =>
      .request (c.baseURL ++ "&json&action=screenshot&string=" ++ jsToString url)

/-- `headers(domain)` (lines 172-178): uses `&html=0` and action `header`. -/
def headers (c : Client) (domain : JSVal) : Outcome :=
  match isEmpty domain with
  | .error e => .thrown e
  | .ok true => .localError "Please enter a domain!"
  | .ok false =>
      .request (c.baseURL ++ "&html=0&action=header&string=" ++ jsToString domain)

/-- `whois(url)` (lines 185-191): uses `&html=0`. -/
def whois (c : Client) (url : JSVal) : Outcome :=
  match isEmpty url with
  | .error e => .thrown e
  | .ok true => .localError "Please enter a url!"
  | .ok false =>
      .request (c.baseURL ++ "&html=0&action=whois&string=" ++ jsToString url)

/-- `ping(url)` (lines 198-204): uses `&html=0`. -/
def ping (c : Client) (url : JSVal) : Outcome :=
  match isEmpty url with
  | .error e => .thrown e
  | .ok true => .localError "Please enter a url!"
  | .ok false =>
      .request (c.baseURL ++ "&html=0&action=ping&string=" ++ jsToString url)

/-- `portscan(url, port=null)` (lines 212-222): `none` models the JavaScript
default `null`; when a port is given it is appended as `&port=<port>`. -/
def portscan (c : Client) (url : JSVal) (port : Option Int) : Outcome :=
  match isEmpty url with
  | .error e => .thrown e
  | .ok true => .localError "Please enter a url!"
  | .ok false =>
      match port with
      | none =>
          .request (c.baseURL ++ "&json&action=portscan&string=" ++ jsToString url)
      | some p =>
          .request (c.baseURL ++ "&json&action=portscan&string=" ++ jsToString url
            ++ "&port=" ++ toString p)

/-- `iplogger(logger="", id="")` (lines 230-232): no validation at all;
`none` models an omitted argument, defaulted to the empty string. -/
def iplogger (c : Client) (logger id : Option String) : Outcome :=
  .request (c.baseURL ++ "&json&action=iplogger&string=" ++ id.getD ""
    ++ "&logger=" ++ logger.getD "")

/-- `isTempEmail(email)` (lines 239-249): emptiness check, then
`validator.isEmail`; action `disposable_email`. -/
def isTempEmail (c : Client) (email : JSVal) : Outcome :=
  match isEmpty email with
  | .error e => .thrown e
  | .ok true => .localError "Please enter a valid email address!"
  | .ok false =>
      if validatorIsEmail (jsToString email) then
        .request (c.baseURL ++ "&json&action=disposable_email&string=" ++ jsToString email)
      else
        .localError "Please enter a valid email address!"

/-- `ip2websites(ip)` (lines 256-266): emptiness check, then
`validator.isIP`. -/
def ip2websites (c : Client) (ip : JSVal) : Outcome :=
  match isEmpty ip with
  | .error e => .thrown e
  | .ok true => .localError "Please enter a valid IP address!"
  | .ok false =>
      if validatorIsIP (jsToString ip) then
        .request (c.baseURL ++ "&json&action=ip2websites&string=" ++ jsToString ip)
      else
        .localError "Please enter a valid IP address!"

/-- `domainInfo(domain)` (lines 273-279). -/
def domainInfo (c : Client) (domain : JSVal) : Outcome :=
  match isEmpty domain with
  | .error e => .thrown e
  | .ok true => .localError "Please enter a domain!"
  | .ok false =>
      .request (c.baseURL ++ "&json&action=domaininfo&string=" ++ jsToString domain)

/-- The public methods that validate a primary string argument (every method
of the class except `iplogger`). -/
inductive VMethod where
  | skypeResolve | resolveDb | ip2skype | email2skype | skype2email
  | geoIp | dns | cloudflare | phone | screenshot
  | headers | whois | ping | portscan | isTempEmail
  | ip2websites | domainInfo
deriving DecidableEq, Repr

/-- The field-specific validation prompt each method returns. -/
def prompt : VMethod → String
  | .skypeResolve => "Please enter a Skype username!"
  | .resolveDb => "Please enter a Skype username!"
  | .ip2skype => "Please enter a valid IP address!"
  | .email2skype => "Please enter a valid email address!"
  | .skype2email => "Please enter a Skype username!"
  | .geoIp => "Please enter a domain, IPv4 or IPv6 address!"
  | .dns => "Please enter a domain!"
  | .cloudflare => "Please enter a domain!"
  | .phone => "Please enter a phone number! (Use international phone format)"
  | .screenshot => "Please enter a url!"
  | .headers => "Please enter a domain!"
  | .whois => "Please enter a url!"
  | .ping => "Please enter a url!"
  | .portscan => "Please enter a url!"
  | .isTempEmail => "Please enter a valid email address!"
  | .ip2websites => "Please enter a valid IP address!"
  | .domainInfo => "Please enter a domain!"

/-- The `action` query value each method sends. -/
def actionCode : VMethod → String
  | .skypeResolve => "resolve"
  | .resolveDb => "resolvedb"
  | .ip2skype => "ip2skype"
  | .email2skype => "email2skype"
  | .skype2email => "skype2email"
  | .geoIp => "geoip"
  | .dns => "dns"
  | .cloudflare => "cloudflare"
  | .phone => "phonenumbercheck"
  | .screenshot => "screenshot"
  | .headers => "header"
  | .whois => "whois"
  | .ping => "ping"
  | .portscan => "portscan"
  | .isTempEmail => "disposable_email"
  | .ip2websites => "ip2websites"
  | .domainInfo => "domaininfo"

/-- The output-format flag each method appends right after the base URL:
`&html=0` for `headers`, `whois` and `ping`, `&json` for all others. -/
def flag : VMethod → String
  | .headers => "&html=0"
  | .whois => "&html=0"
  | .ping => "&html=0"
  | _ => "&json"

/-- The constant URL segment each method concatenates between the base URL
and the primary argument. -/
def urlTemplate : VMethod → String
  | .skypeResolve => "&json&action=resolve&string="
  | .resolveDb => "&json&action=resolvedb&string="
  | .ip2skype => "&json&action=ip2skype&string="
  | .email2skype => "&json&action=email2skype&string="
  | .skype2email => "&json&action=skype2email&string="
  | .geoIp => "&json&action=geoip&string="
  | .dns => "&json&action=dns&string="
  | .cloudflare => "&json&action=cloudflare&string="
  | .phone => "&json&action=phonenumbercheck&string="
  | .screenshot => "&json&action=screenshot&string="
  | .headers => "&html=0&action=header&string="
  | .whois => "&html=0&action=whois&string="
  | .ping => "&html=0&action=ping&string="
  | .portscan => "&json&action=portscan&string="
  | .isTempEmail => "&json&action=disposable_email&string="
  | .ip2websites => "&json&action=ip2websites&string="
  | .domainInfo => "&json&action=domaininfo&string="

/-- The format check a method applies after the emptiness check:
`validator.isIP` for the IP methods, `validator.isEmail` for the email
methods, vacuous for the rest. -/
def fmtOk : VMethod → String → Bool
  | .ip2skype, s => validatorIsIP s
  | .ip2websites, s => validatorIsIP s
  | .email2skype, s => validatorIsEmail s
  | .isTempEmail, s => validatorIsEmail s
  | _, _ => true

/-- The optional port suffix: only `portscan` consumes its port argument. -/
def portTail : VMethod → Option Int → String
  | .portscan, some p => "&port=" ++ toString p
  | _, _ => ""

/-- Dispatch a validated method call on a client; the port argument is used
only by `portscan` (the other methods take a single argument). -/
def runV (c : Client) (m : VMethod) (v : JSVal) (port : Option Int) : Outcome :=
  match m with
  | .skypeResolve => skypeResolve c v
  | .resolveDb => resolveDb c v
  | .ip2skype => ip2skype c v
  | .email2skype => email2skype c v
  | .skype2email => skype2email c v
  | .geoIp => geoIp c v
  | .dns => dns c v
  | .cloudflare => cloudflare c v
  | .phone => phone c v
  | .screenshot => screenshot c v
  | .headers => headers c v
  | .whois => whois c v
  | .ping => ping c v
  | .portscan => portscan c v port
  | .isTempEmail => isTempEmail c v
  | .ip2websites => ip2websites c v
  | .domainInfo => domainInfo c v

/-- The uniform shape shared by all seventeen validated methods:
check emptiness (propagating the throw), return the prompt on failure,
apply the format check when there is one, and otherwise request
`baseURL ++ template ++ argument ++ port suffix`. -/
def genericRun (c : Client) (m : VMethod) (v : JSVal) (port : Option Int) : Outcome :=
  match isEmpty v with
  | .error e => .thrown e
  | .ok true => .localError (prompt m)
  | .ok false =>
      if fmtOk m (jsToString v) then
        .request (c.baseURL ++ urlTemplate m ++ jsToString v ++ portTail m port)
      else
        .localError (prompt m)

/-- Each method's constant URL segment is its flag, then the action
parameter, then the string parameter prefix. -/
theorem urlTemplate_eq (m : VMethod) :
    urlTemplate m = flag m ++ "&action=" ++ actionCode m ++ "&string=" := by
  cases m <;> rfl

/-- Every validated method is an instance of the uniform shape. -/
theorem runV_eq_genericRun (c : Client) (m : VMethod) (v : JSVal) (port : Option Int) :
    runV c m v port = genericRun c m v port := by
  cases m <;> cases v <;>
    simp only [runV, genericRun, skypeResolve, resolveDb, ip2skype, email2skype,
      skype2email, geoIp, dns, cloudflare, phone, screenshot, headers, whois,
      ping, portscan, isTempEmail, ip2websites, domainInfo, isEmpty, fmtOk,
      prompt, urlTemplate, portTail, jsToString, validatorIsEmpty] <;>
    first
      | rfl
      | (split <;> simp_all <;> first | rfl | (cases port <;> simp [String.append_empty, String.append_assoc]))

/-- A concrete client built from the key `"APIKEY"`. -/
def sampleClient : Client := ⟨"https://webresolver.nl/api.php?key=APIKEY", false⟩

/-- A concrete client built from the empty-string key. -/
def emptyKeyClient : Client := ⟨"https://webresolver.nl/api.php?key=", true⟩

/-- A format-valid sample primary argument for each validated method. -/
def sampleInput : VMethod → String
  | .ip2skype => "8.8.8.8"
  | .ip2websites => "8.8.8.8"
  | .email2skype => "a@b.com"
  | .isTempEmail => "a@b.com"
  | _ => "example.com"

/-- Number of positions in `l` (one per suffix, the empty suffix included)
at which `pat` occurs. -/
def countOcc (pat : List Char) : List Char → Nat
  | [] => if pat.isPrefixOf [] then 1 else 0
  | c :: rest => (if pat.isPrefixOf (c :: rest) then 1 else 0) + countOcc pat rest

/-- The constructor never throws on string keys, and the base URL is the
fixed endpoint with the key appended. -/
theorem construct_ok_baseURL {key : JSVal} {c : Client}
    (h : construct key = .ok c) :
    c.baseURL = "https://webresolver.nl/api.php?key=" ++ jsToString key := by
  unfold construct at h
  cases hE : isEmpty key with
  | error e => rw [hE] at h; cases h
  | ok w => rw [hE] at h; cases h; rfl

/-- Inversion for request outcomes: a validated method performs a network
call only when its argument is a string that passed the emptiness and
format checks, and the URL is exactly the concatenation the source builds. -/
theorem runV_request_inv {c : Client} {m : VMethod} {v : JSVal}
    {port : Option Int} {url : String}
    (h : runV c m v port = .request url) :
    ∃ s, v = .str s ∧ isEmpty (.str s) = .ok false ∧ fmtOk m s = true ∧
      url = c.baseURL ++ urlTemplate m ++ s ++ portTail m port := by
  rw [runV_eq_genericRun] at h
  unfold genericRun at h
  cases v with
  | undef => simp [isEmpty] at h
  | null => simp [isEmpty] at h
  | num n => simp [isEmpty, validatorIsEmpty] at h
  | str s =>
      refine ⟨s, rfl, ?_⟩
      simp only [isEmpty, validatorIsEmpty, jsToString] at h ⊢
      by_cases hts : jsTrim s = ""
      · simp [hts] at h
      · simp only [hts, if_false] at h ⊢
        by_cases hs : s = ""
        · simp [hs] at h
        · simp only [hs, decide_False] at h ⊢
          by_cases hf : fmtOk m s = true
          · simp only [hf, if_true] at h
            exact ⟨trivial, hf, (Outcome.request.injEq _ _).mp h.symm⟩
          · simp [hf] at h

/-- A prefix of a list is a prefix of any right extension. -/
theorem prefix_extend {α : Type} {p l : List α} (h : p <+: l) (rest : List α) :
    p <+: l ++ rest := by
  obtain ⟨t, rfl⟩ := h
  exact ⟨t ++ rest, by rw [List.append_assoc]⟩

/-- Prefixes are preserved under appending the same list on the left. -/
theorem prefix_append_left {α : Type} (a : List α) {p l : List α} (h : p <+: l) :
    a ++ p <+: a ++ l := by
  obtain ⟨t, rfl⟩ := h
  exact ⟨t, by rw [List.append_assoc]⟩

/-- A suffix of a list is a suffix of any left extension. -/
theorem suffix_extend {α : Type} {p l : List α} (h : p <:+ l) (front : List α) :
    p <:+ front ++ l := by
  obtain ⟨t, rfl⟩ := h
  exact ⟨front ++ t, by rw [List.append_assoc]⟩

/-- A suffix of a list occurs within any left extension of it. -/
theorem within_of_suffix_front {α : Type} {p l : List α} (h : p <:+ l)
    (front : List α) : p <:+: front ++ l := by
  obtain ⟨t, rfl⟩ := h
  exact ⟨front ++ t, [], by simp [List.append_assoc]⟩

/-- Split a concrete prefix at an append boundary: if `p` is `a` followed by
`q`, and `q` is a prefix of `l`, then `p` is a prefix of `a ++ l`. -/
theorem prefix_glue {α : Type} {p a l : List α} (q : List α) (hp : p = a ++ q)
    (h : q <+: l) : p <+: a ++ l := by
  subst hp
  exact prefix_append_left a h

/-- C1: every method that requires a primary string argument (all public
methods except `iplogger`), called with `undefined`, `null`, the empty
string, or a whitespace-only string, returns the synthetic object
`{data:{error:"<field-specific prompt>"}}` and performs no network call. -/
theorem c1_blank_input_local_error :
    ∀ (c : Client) (m : VMethod) (port : Option Int),
      runV c m .undef port = .localError (prompt m) ∧
      runV c m .null port = .localError (prompt m) ∧
      runV c m (.str "") port = .localError (prompt m) ∧
      ∀ s : String, jsTrim s = "" → runV c m (.str s) port = .localError (prompt m) := by
  intro c m port
  refine ⟨?_, ?_, ?_, ?_⟩
  · rw [runV_eq_genericRun]; rfl
  · rw [runV_eq_genericRun]; rfl
  · rw [runV_eq_genericRun]; rfl
  · intro s hs
    rw [runV_eq_genericRun]
    simp [genericRun, isEmpty, hs]

/-- Witness for C1 at `skypeResolve` on a whitespace-only string. -/
theorem c1_blank_input_local_error_witness :
    jsTrim " " = "" ∧
    runV sampleClient .skypeResolve (.str " ") none =
      .localError "Please enter a Skype username!" :=
  ⟨rfl, (c1_blank_input_local_error sampleClient .skypeResolve none).2.2.2 " " rfl⟩

/-- C9: calling any validated method with a non-empty non-string argument
(a number) makes `validator.isEmpty` throw a `TypeError` instead of
returning a local validation-error object or issuing a network call: the
error branch of `isEmpty` is not total over non-string inputs. -/
theorem c9_number_argument_throws :
    ∀ (c : Client) (m : VMethod) (port : Option Int) (n : Int),
      isEmpty (.num n) = .error "TypeError: Expected a string" ∧
      runV c m (.num n) port = .thrown "TypeError: Expected a string" := by
  intro c m port n
  exact ⟨rfl, by rw [runV_eq_genericRun]; rfl⟩

/-- C8: constructing the client with an empty key succeeds (it only sets the
warning log flag), the base URL is formed by appending the key regardless,
and every subsequent request URL embeds the empty key segment
(`...api.php?key=` immediately followed by `&`). -/
theorem c8_empty_key_tolerated :
    (∀ s : String, jsTrim s = "" →
      construct (.str s) = .ok ⟨"https://webresolver.nl/api.php?key=" ++ s, true⟩) ∧
    construct (.str "") = .ok emptyKeyClient ∧
    emptyKeyClient.baseURL = "https://webresolver.nl/api.php?key=" ++ "" ∧
    (∀ m v port url, runV emptyKeyClient m v port = .request url →
      ("https://webresolver.nl/api.php?key=&").data <+: url.data) ∧
    (∀ logger id url, iplogger emptyKeyClient logger id = .request url →
      ("https://webresolver.nl/api.php?key=&").data <+: url.data) := by
  refine ⟨?_, rfl, rfl, ?_, ?_⟩
  · intro s hs
    simp [construct, isEmpty, hs, jsToString]
  · intro m v port url h
    obtain ⟨s, -, -, -, rfl⟩ := runV_request_inv h
    simp only [emptyKeyClient, String.data_append, List.append_assoc]
    apply prefix_glue ['&'] (by decide)
    apply prefix_extend
    cases m <;> decide
  · intro logger id url h
    simp only [iplogger, Outcome.request.injEq] at h
    subst h
    simp only [emptyKeyClient, String.data_append, List.append_assoc]
    apply prefix_glue ['&'] (by decide)
    apply prefix_extend
    decide

/-- Witness for C8: a blank key constructs fine, and `skypeResolve` with
argument `"bob"` embeds the empty key segment. -/
theorem c8_empty_key_tolerated_witness :
    construct (.str " ") = .ok ⟨"https://webresolver.nl/api.php?key=" ++ " ", true⟩ ∧
    runV emptyKeyClient .skypeResolve (.str "bob") none =
      .request "https://webresolver.nl/api.php?key=&json&action=resolve&string=bob" ∧
    ("https://webresolver.nl/api.php?key=&").data <+:
      ("https://webresolver.nl/api.php?key=&json&action=resolve&string=bob").data :=
  ⟨c8_empty_key_tolerated.1 " " rfl, rfl,
    c8_empty_key_tolerated.2.2.2.1 .skypeResolve (.str "bob") none _ rfl⟩

/-- C10: constructing the client with an `undefined` or `null` key produces
a base URL ending in the literal text `undefined` or `null` (JavaScript
string concatenation), so every subsequent request embeds that literal text
as the API key rather than an empty key segment. -/
theorem c10_undefined_null_key_literal :
    construct .undef = .ok ⟨"https://webresolver.nl/api.php?key=undefined", true⟩ ∧
    construct .null = .ok ⟨"https://webresolver.nl/api.php?key=null", true⟩ ∧
    (∀ m v port url,
      runV ⟨"https://webresolver.nl/api.php?key=undefined", true⟩ m v port = .request url →
      ("https://webresolver.nl/api.php?key=undefined&").data <+: url.data) ∧
    (∀ m v port url,
      runV ⟨"https://webresolver.nl/api.php?key=null", true⟩ m v port = .request url →
      ("https://webresolver.nl/api.php?key=null&").data <+: url.data) := by
  refine ⟨rfl, rfl, ?_, ?_⟩
  · intro m v port url h
    obtain ⟨s, -, -, -, rfl⟩ := runV_request_inv h
    simp only [String.data_append, List.append_assoc]
    apply prefix_glue ['&'] (by decide)
    apply prefix_extend
    cases m <;> decide
  · intro m v port url h
    obtain ⟨s, -, -, -, rfl⟩ := runV_request_inv h
    simp only [String.data_append, List.append_assoc]
    apply prefix_glue ['&'] (by decide)
    apply prefix_extend
    cases m <;> decide

/-- Witness for C10 at `dns` with argument `"example.com"`. -/
theorem c10_undefined_null_key_literal_witness :
    runV ⟨"https://webresolver.nl/api.php?key=undefined", true⟩ .dns
        (.str "example.com") none =
      .request "https://webresolver.nl/api.php?key=undefined&json&action=dns&string=example.com" ∧
    ("https://webresolver.nl/api.php?key=undefined&").data <+:
      ("https://webresolver.nl/api.php?key=undefined&json&action=dns&string=example.com").data :=
  ⟨rfl, c10_undefined_null_key_literal.2.2.1 .dns (.str "example.com") none _ rfl⟩

/-- With the port omitted, no method appends a port suffix. -/
theorem portTail_none (m : VMethod) : portTail m none = "" := by
  cases m <;> rfl

/-- C2: every outbound request URL is the construction-time base URL (with
its single embedded key) followed by one flag and one action parameter; no
request is issued when the emptiness or format validation fails; on
format-valid sample inputs the URL contains the key and action markers
exactly once. -/
theorem c2_single_key_single_action :
    (∀ (key : JSVal) (c : Client), construct key = .ok c →
      ∀ m v port url, runV c m v port = .request url →
        ∃ s, v = .str s ∧
          url = "https://webresolver.nl/api.php?key=" ++ jsToString key ++
            (flag m ++ "&action=" ++ actionCode m ++ "&string=") ++ s ++
            portTail m port) ∧
    (∀ c m v port, isEmpty v = .ok true → ∀ url, runV c m v port ≠ .request url) ∧
    (∀ c m s port, fmtOk m s = false → ∀ url, runV c m (.str s) port ≠ .request url) ∧
    (∀ (key : JSVal) (c : Client), construct key = .ok c →
      ∀ logger id url, iplogger c logger id = .request url →
        url = "https://webresolver.nl/api.php?key=" ++ jsToString key ++
          "&json&action=iplogger&string=" ++ id.getD "" ++ "&logger=" ++ logger.getD "") ∧
    (∀ m, ∃ url, runV sampleClient m (.str (sampleInput m)) (some 80) = .request url ∧
      countOcc ("&action=").data url.data = 1 ∧
      countOcc ("key=").data url.data = 1) ∧
    countOcc ("&action=").data
      ("https://webresolver.nl/api.php?key=APIKEY&json&action=iplogger&string=&logger=").data = 1 ∧
    countOcc ("key=").data
      ("https://webresolver.nl/api.php?key=APIKEY&json&action=iplogger&string=&logger=").data = 1 := by
  refine ⟨?_, ?_, ?_, ?_, ?_, by decide, by decide⟩
  · intro key c hc m v port url h
    obtain ⟨s, rfl, -, -, rfl⟩ := runV_request_inv h
    refine ⟨s, rfl, ?_⟩
    rw [construct_ok_baseURL hc, urlTemplate_eq]
  · intro c m v port he url h
    obtain ⟨s, rfl, hne, -, -⟩ := runV_request_inv h
    rw [he] at hne
    simp at hne
  · intro c m s port hfm url h
    obtain ⟨s', heq, -, hf, -⟩ := runV_request_inv h
    cases heq
    rw [hfm] at hf
    cases hf
  · intro key c hc logger id url h
    simp only [iplogger, Outcome.request.injEq] at h
    rw [← h, construct_ok_baseURL hc]
  · intro m
    cases m <;> exact ⟨_, rfl, by decide, by decide⟩

/-- Witness for C2 part one at key `"APIKEY"`, method `skypeResolve`,
argument `"bob"`. -/
theorem c2_single_key_single_action_witness :
    ∃ s, JSVal.str "bob" = JSVal.str s ∧
      "https://webresolver.nl/api.php?key=APIKEY&json&action=resolve&string=bob" =
        "https://webresolver.nl/api.php?key=" ++ jsToString (.str "APIKEY") ++
          (flag .skypeResolve ++ "&action=" ++ actionCode .skypeResolve ++ "&string=") ++
          s ++ portTail .skypeResolve none :=
  c2_single_key_single_action.1 (.str "APIKEY") sampleClient rfl
    .skypeResolve (.str "bob") none
    "https://webresolver.nl/api.php?key=APIKEY&json&action=resolve&string=bob" rfl

/-- C7: every validated method, on a non-empty format-valid primary input,
requests exactly `baseURL ++ flag ++ "&action=" ++ code ++ "&string=" ++
input`, where the flag is `&html=0` for `headers`, `whois` and `ping` and
`&json` for every other method; the transport response is what the request
outcome returns, unmodified. -/
theorem c7_validated_url_shape :
    ∀ (c : Client) (m : VMethod) (s : String),
      isEmpty (.str s) = .ok false → fmtOk m s = true →
      runV c m (.str s) none =
        .request (c.baseURL ++ (flag m ++ "&action=" ++ actionCode m ++ "&string=") ++ s) ∧
      flag m = (if m = .headers ∨ m = .whois ∨ m = .ping then "&html=0" else "&json") := by
  intro c m s he hf
  constructor
  · rw [runV_eq_genericRun]
    unfold genericRun
    rw [he]
    simp [jsToString, hf, portTail_none, String.append_empty, urlTemplate_eq]
  · cases m <;> rfl

/-- Witness for C7 at `dns` with argument `"example.com"`. -/
theorem c7_validated_url_shape_witness :
    runV sampleClient .dns (.str "example.com") none =
      .request (sampleClient.baseURL ++
        (flag .dns ++ "&action=" ++ actionCode .dns ++ "&string=") ++ "example.com") :=
  (c7_validated_url_shape sampleClient .dns "example.com" rfl rfl).1

/-- C5: `ip2skype` and `ip2websites` return the local IP-format error object
without a network call on any non-empty string that is not a valid IP
address (in particular on `"not-an-ip"` and `"999.999.999.999"`), and
`ip2skype` on the valid IP `"8.8.8.8"` requests a URL ending in
`&action=ip2skype&string=8.8.8.8`. -/
theorem c5_ip_format_validation :
    (∀ (c : Client) (s : String), jsTrim s ≠ "" → validatorIsIP s = false →
      ip2skype c (.str s) = .localError "Please enter a valid IP address!" ∧
      ip2websites c (.str s) = .localError "Please enter a valid IP address!") ∧
    (∀ c : Client,
      ip2skype c (.str "not-an-ip") = .localError "Please enter a valid IP address!" ∧
      ip2websites c (.str "999.999.999.999") =
        .localError "Please enter a valid IP address!") ∧
    (∀ c : Client,
      ip2skype c (.str "8.8.8.8") =
        .request (c.baseURL ++ "&json&action=ip2skype&string=8.8.8.8") ∧
      ("&action=ip2skype&string=8.8.8.8").data <:+
        (c.baseURL ++ "&json&action=ip2skype&string=8.8.8.8").data) := by
  refine ⟨?_, ?_, ?_⟩
  · intro c s ht hf
    have hs : s ≠ "" := by
      intro h
      exact ht (by rw [h]; rfl)
    constructor <;>
      simp [ip2skype, ip2websites, isEmpty, validatorIsEmpty, jsToString, ht, hs, hf]
  · intro c
    exact ⟨rfl, rfl⟩
  · intro c
    constructor
    · have hmerge : c.baseURL ++ "&json&action=ip2skype&string=" ++ "8.8.8.8" =
          c.baseURL ++ "&json&action=ip2skype&string=8.8.8.8" := by
        apply String.ext
        simp [String.data_append]
      rw [← hmerge]
      rfl
    · rw [String.data_append]
      apply suffix_extend
      decide

/-- Witness for C5 at `ip2skype` on the non-IP string `"not-an-ip"`. -/
theorem c5_ip_format_validation_witness :
    jsTrim "not-an-ip" ≠ "" ∧ validatorIsIP "not-an-ip" = false ∧
    ip2skype sampleClient (.str "not-an-ip") =
      .localError "Please enter a valid IP address!" :=
  ⟨by decide, by decide,
    (c5_ip_format_validation.1 sampleClient "not-an-ip" (by decide) (by decide)).1⟩

/-- C3 counterexample: `email2skype("a@b.com")` requests a URL whose action
parameter is `email2skype`; the URL does not contain the claimed text
`&action=email2skython&string=a@b.com` anywhere. -/
theorem c3_email2skython_counterexample :
    email2skype sampleClient (.str "a@b.com") =
      .request "https://webresolver.nl/api.php?key=APIKEY&json&action=email2skype&string=a@b.com" ∧
    ¬ ("&action=email2skython&string=a@b.com").data <:+:
      ("https://webresolver.nl/api.php?key=APIKEY&json&action=email2skype&string=a@b.com").data := by
  exact ⟨by decide, by decide⟩

/-- C3 amended: `email2skype` and `isTempEmail` return the local
email-format error object without a network call on any non-empty string
that is not a valid email (in particular `"not-an-email"` and `"bad"`), and
`email2skype` on the valid email `"a@b.com"` requests a URL containing
`&action=email2skype&string=a@b.com`. -/
theorem c3_amended_email_validation :
    (∀ (c : Client) (s : String), jsTrim s ≠ "" → validatorIsEmail s = false →
      email2skype c (.str s) = .localError "Please enter a valid email address!" ∧
      isTempEmail c (.str s) = .localError "Please enter a valid email address!") ∧
    (∀ c : Client,
      email2skype c (.str "not-an-email") =
        .localError "Please enter a valid email address!" ∧
      isTempEmail c (.str "bad") = .localError "Please enter a valid email address!") ∧
    (∀ c : Client,
      email2skype c (.str "a@b.com") =
        .request (c.baseURL ++ "&json&action=email2skype&string=a@b.com") ∧
      ("&action=email2skype&string=a@b.com").data <:+:
        (c.baseURL ++ "&json&action=email2skype&string=a@b.com").data) := by
  refine ⟨?_, ?_, ?_⟩
  · intro c s ht hf
    have hs : s ≠ "" := by
      intro h
      exact ht (by rw [h]; rfl)
    constructor <;>
      simp [email2skype, isTempEmail, isEmpty, validatorIsEmpty, jsToString, ht, hs, hf]
  · intro c
    exact ⟨rfl, rfl⟩
  · intro c
    constructor
    · have hmerge : c.baseURL ++ "&json&action=email2skype&string=" ++ "a@b.com" =
          c.baseURL ++ "&json&action=email2skype&string=a@b.com" := by
        apply String.ext
        simp [String.data_append]
      rw [← hmerge]
      rfl
    · rw [String.data_append]
      apply within_of_suffix_front
      decide

/-- Witness for C3 (amended) at `email2skype` on `"not-an-email"`. -/
theorem c3_amended_email_validation_witness :
    jsTrim "not-an-email" ≠ "" ∧ validatorIsEmail "not-an-email" = false ∧
    email2skype sampleClient (.str "not-an-email") =
      .localError "Please enter a valid email address!" :=
  ⟨by decide, by decide,
    (c3_amended_email_validation.1 sampleClient "not-an-email" (by decide) (by decide)).1⟩

/-- C4 counterexample: `iplogger()` with no arguments issues a request whose
`logger=` value is empty — the URL does not contain `logger=youtube`. -/
theorem c4_youtube_default_counterexample :
    iplogger sampleClient none none =
      .request "https://webresolver.nl/api.php?key=APIKEY&json&action=iplogger&string=&logger=" ∧
    ¬ ("logger=youtube").data <:+:
      ("https://webresolver.nl/api.php?key=APIKEY&json&action=iplogger&string=&logger=").data := by
  exact ⟨by decide, by decide⟩

/-- C4 amended: `iplogger` performs no input validation and always issues
the network call; with no arguments the URL has an empty `string=` value
and an empty `logger=` value (the code default is the empty string, not the
documented `youtube`); explicit arguments are spliced in unvalidated. -/
theorem c4_amended_iplogger_always_requests :
    (∀ (c : Client) (logger id : Option String), ∃ url, iplogger c logger id = .request url) ∧
    (∀ c : Client, iplogger c none none =
      .request (c.baseURL ++ "&json&action=iplogger&string=&logger=")) ∧
    (∀ (c : Client) (l i : String), iplogger c (some l) (some i) =
      .request (c.baseURL ++ "&json&action=iplogger&string=" ++ i ++ "&logger=" ++ l)) := by
  refine ⟨fun c logger id => ⟨_, rfl⟩, ?_, fun c l i => rfl⟩
  intro c
  have hmerge : c.baseURL ++ "&json&action=iplogger&string=" ++ "" ++ "&logger=" ++ "" =
      c.baseURL ++ "&json&action=iplogger&string=&logger=" := by
    apply String.ext
    simp [String.data_append]
  rw [← hmerge]
  rfl

/-- C6: `portscan` with a non-empty url and no port issues a request whose
URL carries no `&port=` parameter; with port 80 the URL ends in
`&port=80`. -/
theorem c6_portscan_port_handling :
    (∀ c : Client, portscan c (.str "example.com") none =
      .request (c.baseURL ++ "&json&action=portscan&string=example.com")) ∧
    portscan sampleClient (.str "example.com") none =
      .request "https://webresolver.nl/api.php?key=APIKEY&json&action=portscan&string=example.com" ∧
    ¬ ("&port=").data <:+:
      ("https://webresolver.nl/api.php?key=APIKEY&json&action=portscan&string=example.com").data ∧
    (∀ c : Client, portscan c (.str "example.com") (some 80) =
      .request (c.baseURL ++ "&json&action=portscan&string=example.com&port=80")) ∧
    (∀ c : Client, ("&port=80").data <:+
      (c.baseURL ++ "&json&action=portscan&string=example.com&port=80").data) := by
  refine ⟨?_, by decide, by decide, ?_, ?_⟩
  · intro c
    have hmerge : c.baseURL ++ "&json&action=portscan&string=" ++ "example.com" =
        c.baseURL ++ "&json&action=portscan&string=example.com" := by
      apply String.ext
      simp [String.data_append]
    rw [← hmerge]
    rfl
  · intro c
    have hmerge : c.baseURL ++ "&json&action=portscan&string=" ++ "example.com" ++
          "&port=" ++ "80" =
        c.baseURL ++ "&json&action=portscan&string=example.com&port=80" := by
      apply String.ext
      simp [String.data_append]
    rw [← hmerge]
    rfl
  · intro c
    rw [String.data_append]
    apply suffix_extend
    decide

/-- Witness for C9 at `dns` with the number 42. -/
theorem c9_number_argument_throws_witness :
    runV sampleClient .dns (.num 42) none = .thrown "TypeError: Expected a string" :=
  (c9_number_argument_throws sampleClient .dns none 42).2

/-- Witness for C4 (amended): the no-argument call on the sample client. -/
theorem c4_amended_iplogger_always_requests_witness :
    iplogger sampleClient none none =
      .request (sampleClient.baseURL ++ "&json&action=iplogger&string=&logger=") :=
  c4_amended_iplogger_always_requests.2.1 sampleClient

/-- Witness for C6: the port-80 call on the sample client. -/
theorem c6_portscan_port_handling_witness :
    portscan sampleClient (.str "example.com") (some 80) =
      .request (sampleClient.baseURL ++ "&json&action=portscan&string=example.com&port=80") :=
  c6_portscan_port_handling.2.2.2.1 sampleClient

end WebResolver
